import Mathlib

set_option allowUnsafeReducibility true
attribute [semireducible] Rat.add Rat.sub Rat.mul Rat.inv Rat.div Rat.ofScientific

/-!
Verification development for the CONTROLLER repository (crypto-boiler
temperature controller).  The Python sources under `src/` are shallowly
embedded: temperatures and times are rationals (`ℚ`), relay and regulator
objects become structures, and each method becomes a pure function on the
corresponding state.  The definitions follow the source files
`valve_control/relay_controller.py`, `valve_control/temperature_regulator.py`,
`valve_control/valve_controller.py`, `valve_control/data_manager_integration.py`,
`data_manager/data_manager.py`, `data_manager/settings_manager.py` and
`get_temperature_from_asic/whatsminer_interface/whatsminer_transport.py`.
-/

namespace Controller

/-- State of one `RelayController` (relay_controller.py).  Only the fields
relevant to switching logic are kept: the logical relay state, the time of the
last committed transition and the switch counter.  GPIO emulation mode is
assumed (initialization succeeded, writes never raise), so `turn_on` /
`turn_off` always report success. -/
structure RelayState where
  relay_state : Bool
  last_switch_time : Option ℚ
  switch_count : Nat
deriving DecidableEq

/-- `RelayController.turn_on` (relay_controller.py lines 110-137): drives the
pin, and if the relay was logically off, commits the transition (state, last
switch time, counter).  Returns the new state and the boolean result, which is
`true` on this non-error path even when the relay was already on. -/
def turn_on (now : ℚ) (r : RelayState) : RelayState × Bool :=
  if r.relay_state then (r, true)
  else ({ relay_state := true, last_switch_time := some now,
          switch_count := r.switch_count + 1 }, true)

/-- `RelayController.turn_off` (relay_controller.py lines 139-170), the
mirror image of `turn_on`. -/
def turn_off (now : ℚ) (r : RelayState) : RelayState × Bool :=
  if r.relay_state then
    ({ relay_state := false, last_switch_time := some now,
       switch_count := r.switch_count + 1 }, true)
  else (r, true)

/-- `TemperatureRegulator._can_switch_now` (temperature_regulator.py lines
432-448): a channel may switch if it has never switched, if the configured
minimum cycle time is non-positive, or if at least `min_cycle` has elapsed
since its last switch. -/
def can_switch_now (min_cycle now : ℚ) (r : RelayState) : Bool :=
  match r.last_switch_time with
  | none => true
  | some t => decide (min_cycle ≤ 0) || decide (now - t ≥ min_cycle)

/-- `TemperatureRegulator._safe_turn_on` (lines 450-457): refuse the switch
(returning `false` and leaving the relay untouched) when blocked by the
minimum cycle time, otherwise delegate to `turn_on`. -/
def safe_turn_on (min_cycle now : ℚ) (r : RelayState) : RelayState × Bool :=
  if can_switch_now min_cycle now r then turn_on now r else (r, false)

/-- `TemperatureRegulator._safe_turn_off` (lines 459-466). -/
def safe_turn_off (min_cycle now : ℚ) (r : RelayState) : RelayState × Bool :=
  if can_switch_now min_cycle now r then turn_off now r else (r, false)

/-- Static configuration of the regulator: `SafetyConfig.min_cycle_time`,
the settings-check interval, and the predictive tunables from
`RegulatorConfig` (temperature_regulator.py lines 31-46). -/
structure StaticConfig where
  min_cycle_time : ℚ
  settings_check_interval : ℚ
  predictive_lookahead_s : ℚ
  predictive_min_rate_c_per_s : ℚ
  predictive_pre_on_margin_c : ℚ
  predictive_pre_off_margin_c : ℚ
  predictive_reverse_rate_c_per_s : ℚ
  predictive_reverse_temp_margin_c : ℚ
deriving DecidableEq

/-- Default values of the tunables (`SafetyConfig.min_cycle_time = 1.0`,
`_settings_check_interval = 1.0`, predictive defaults from `RegulatorConfig`). -/
def defaultStaticConfig : StaticConfig where
  min_cycle_time := 1
  settings_check_interval := 1
  predictive_lookahead_s := 5
  predictive_min_rate_c_per_s := 1/20
  predictive_pre_on_margin_c := 1/2
  predictive_pre_off_margin_c := 1/2
  predictive_reverse_rate_c_per_s := 1/50
  predictive_reverse_temp_margin_c := 1/10

/-- Mutable state of a `TemperatureRegulator`: the two relay channels
(`relay_controller` = upper/HIGH on GPIO17, `relay_controller_low` = lower/LOW
on GPIO22), the working thresholds `config.min_temperature` /
`config.max_temperature`, the working `config.temperature_config.hysteresis`,
the extremum trackers of the predictive algorithm, and
`_last_settings_check`. -/
structure RegulatorState where
  high : RelayState
  low : RelayState
  min_temperature : ℚ
  max_temperature : ℚ
  hysteresis : ℚ
  high_since_on_min_temp : Option ℚ
  low_since_on_max_temp : Option ℚ
  last_settings_check : Option ℚ
deriving DecidableEq

/-- `TemperatureRegulator._regulate_temperature` (temperature_regulator.py
lines 233-286), the Auto (hysteresis) tick.  Upper channel: turn on when
`T ≥ max_temperature`, turn off when `T < max_temperature - hysteresis`.
Lower channel: turn on when `T < min_temperature`, turn off when
`T > min_temperature + hysteresis`.  Both actuations go through the
min-cycle-protected `safe_turn_on` / `safe_turn_off`; the tick contains no
mutual-exclusion logic between the two channels. -/
def regulate_temperature (cfg : StaticConfig) (now T : ℚ)
    (s : RegulatorState) : RegulatorState :=
  let high_active := s.high.relay_state
  let low_active := s.low.relay_state
  let high1 :=
    if !high_active && decide (T ≥ s.max_temperature) then
      (safe_turn_on cfg.min_cycle_time now s.high).1
    else if high_active && decide (T < s.max_temperature - s.hysteresis) then
      (safe_turn_off cfg.min_cycle_time now s.high).1
    else s.high
  let low1 :=
    if !low_active && decide (T < s.min_temperature) then
      (safe_turn_on cfg.min_cycle_time now s.low).1
    else if low_active && decide (T > s.min_temperature + s.hysteresis) then
      (safe_turn_off cfg.min_cycle_time now s.low).1
    else s.low
  { s with high := high1, low := low1 }

/-- Decision phase of the upper channel in
`TemperatureRegulator._regulate_temperature_predictive`
(temperature_regulator.py lines 318-352): the base hysteresis conditions,
refined — when a slope is available — by the pre-on trigger
(`slope > min_rate ∧ predicted ≥ max_temp − pre_on_margin`) and the
reversal-based off trigger.  Returns `(should_high_on, should_high_off)`. -/
def predictive_decisions_high (cfg : StaticConfig) (T max_temp hysteresis : ℚ)
    (high_active : Bool) (high_min : Option ℚ) (slope : Option ℚ) :
    Bool × Bool :=
  let base_on : Bool := !high_active && decide (T ≥ max_temp)
  let base_off : Bool := high_active && decide (T < max_temp - hysteresis)
  match slope with
  | some sl =>
      let lookahead := max 0 cfg.predictive_lookahead_s
      let min_rate := max 0 cfg.predictive_min_rate_c_per_s
      let pre_on_margin := max 0 cfg.predictive_pre_on_margin_c
      let pre_off_margin := max 0 cfg.predictive_pre_off_margin_c
      let predicted := T + sl * lookahead
      (base_on ||
         (!high_active && decide (sl > min_rate) &&
           decide (predicted ≥ max_temp - pre_on_margin)),
       base_off ||
         (high_active && decide (sl ≥ cfg.predictive_reverse_rate_c_per_s) &&
           (match high_min with
            | some m => decide (T ≥ m + cfg.predictive_reverse_temp_margin_c) &&
                        decide (T ≤ max_temp - pre_off_margin)
            | none => false)))
  | none => (base_on, base_off)

/-- Decision phase of the lower channel (lines 380-408), symmetric to the
upper one except that the reversal-based off trigger has no
`pre_off_margin` condition. -/
def predictive_decisions_low (cfg : StaticConfig) (T min_temp hysteresis : ℚ)
    (low_active : Bool) (low_max : Option ℚ) (slope : Option ℚ) :
    Bool × Bool :=
  let base_on : Bool := !low_active && decide (T < min_temp)
  let base_off : Bool := low_active && decide (T > min_temp + hysteresis)
  match slope with
  | some sl =>
      let lookahead := max 0 cfg.predictive_lookahead_s
      let min_rate := max 0 cfg.predictive_min_rate_c_per_s
      let pre_on_margin := max 0 cfg.predictive_pre_on_margin_c
      let predicted := T + sl * lookahead
      (base_on ||
         (!low_active && decide (sl < -min_rate) &&
           decide (predicted ≤ min_temp + pre_on_margin)),
       base_off ||
         (low_active && decide (-sl ≥ cfg.predictive_reverse_rate_c_per_s) &&
           (match low_max with
            | some m => decide (T ≤ m - cfg.predictive_reverse_temp_margin_c)
            | none => false)))
  | none => (base_on, base_off)

/-- Actuation of the upper-channel decision (temperature_regulator.py lines
354-378).  Before turning the upper channel on while the lower is active,
the lower is switched off through `safe_turn_off`; if that is refused and the
lower channel is still on, the turn-on is deferred (`should_high_on = False`
in the source).  Returns
`(high, low, low_active_after, high_since_on_min_temp)`. -/
def predictive_apply_high (mc now T : ℚ)
    (should_on should_off high_active low_active : Bool)
    (high low : RelayState) (high_min : Option ℚ) :
    RelayState × RelayState × Bool × Option ℚ :=
  if should_on && !high_active then
    let q : RelayState × Bool × Bool :=
      if low_active then
        let p := safe_turn_off mc now low
        (p.1, p.2, p.1.relay_state)
      else (low, true, low_active)
    if !q.2.1 && q.2.2 then
      (high, q.1, q.2.2, high_min)
    else
      let p := safe_turn_on mc now high
      (p.1, q.1, q.2.2, if p.2 then some T else high_min)
  else if should_off && high_active then
    ((safe_turn_off mc now high).1, low, low_active, none)
  else (high, low, low_active, high_min)

/-- Actuation of the lower-channel decision (temperature_regulator.py lines
410-430).  The mutual-exclusion guard tests the tick-start `high_active`
local but operates on the current upper relay `high1`.  Returns
`(high, low, low_since_on_max_temp)`. -/
def predictive_apply_low (mc now T : ℚ)
    (should_on should_off high_active low_active1 : Bool)
    (high1 low1 : RelayState) (low_max : Option ℚ) :
    RelayState × RelayState × Option ℚ :=
  if should_on && !low_active1 then
    let q : RelayState × Bool × Bool :=
      if high_active then
        let p := safe_turn_off mc now high1
        (p.1, p.2, p.1.relay_state)
      else (high1, true, high_active)
    if !q.2.1 && q.2.2 then
      (q.1, low1, low_max)
    else
      let p := safe_turn_on mc now low1
      (q.1, p.1, if p.2 then some T else low_max)
  else if should_off && low_active1 then
    (high1, (safe_turn_off mc now low1).1, none)
  else (high1, low1, low_max)

/-- `TemperatureRegulator._regulate_temperature_predictive`
(temperature_regulator.py lines 288-430), assembled from the decision and
actuation phases above.  `slope` is the value returned by
`self._compute_temperature_slope()` (the windowed temperature derivative, or
`None` when the history is too short).  The local Python variables are
modelled faithfully: `low_active` is re-read after the upper section's
attempt to switch the lower channel off, while `high_active` keeps its
tick-start value throughout (the source never reassigns it outside the
exception fallback paths). -/
def regulate_temperature_predictive (cfg : StaticConfig) (now T : ℚ)
    (slope : Option ℚ) (s : RegulatorState) : RegulatorState :=
  let high_active := s.high.relay_state
  let low_active := s.low.relay_state
  let dh := predictive_decisions_high cfg T s.max_temperature s.hysteresis
              high_active s.high_since_on_min_temp slope
  let ah := predictive_apply_high cfg.min_cycle_time now T dh.1 dh.2
              high_active low_active s.high s.low s.high_since_on_min_temp
  let dl := predictive_decisions_low cfg T s.min_temperature s.hysteresis
              ah.2.2.1 s.low_since_on_max_temp slope
  let al := predictive_apply_low cfg.min_cycle_time now T dl.1 dl.2
              high_active ah.2.2.1 ah.1 ah.2.1 s.low_since_on_max_temp
  { s with high := al.1, low := al.2.1,
           high_since_on_min_temp := ah.2.2.2,
           low_since_on_max_temp := al.2.2 }

/-- Guard of `TemperatureRegulator._check_and_update_temperature_settings`
(lines 521-527): the settings check fires on the first tick
(`_last_settings_check is None`) or once `settings_check_interval` seconds
have elapsed since the previous check. -/
def settings_check_fires (cfg : StaticConfig) (now : ℚ)
    (s : RegulatorState) : Bool :=
  match s.last_settings_check with
  | none => true
  | some t => decide (now - t ≥ cfg.settings_check_interval)

/-- `TemperatureRegulator._check_and_update_temperature_settings`
(temperature_regulator.py lines 517-551).  `settings` is the result of the
`temperature_settings_callback` reduced to the pair
`(max_temperature, min_temperature)` (it is `none` when the callback returns
`None` or the dict lacks either key).  When the check fires and the values
differ from the working ones, `config.max_temperature` and
`config.min_temperature` are overwritten; nothing else of the configuration —
in particular not the working hysteresis — is touched. -/
def check_and_update_temperature_settings (cfg : StaticConfig) (now : ℚ)
    (settings : Option (ℚ × ℚ)) (s : RegulatorState) : RegulatorState :=
  if settings_check_fires cfg now s then
    let s1 := { s with last_settings_check := some now }
    match settings with
    | some (new_max, new_min) =>
        if new_max ≠ s1.max_temperature ∨ new_min ≠ s1.min_temperature then
          { s1 with max_temperature := new_max, min_temperature := new_min }
        else s1
    | none => s1
  else s

/-- One iteration of `TemperatureRegulator._regulation_loop`
(temperature_regulator.py lines 184-216) with the hysteresis algorithm
selected: first the settings check runs, then the temperature is fetched;
if it is `None` the iteration is skipped (`continue`), otherwise
`_regulate_temperature` runs on the updated state. -/
def regulation_loop_step (cfg : StaticConfig) (now : ℚ)
    (settings : Option (ℚ × ℚ)) (temp : Option ℚ)
    (s : RegulatorState) : RegulatorState :=
  let s1 := check_and_update_temperature_settings cfg now settings s
  match temp with
  | none => s1
  | some T => regulate_temperature cfg now T s1

/-- Driver for the S1 scenario: feed one temperature per second starting at
time `t`, recording `(upper, lower)` relay states after every tick. -/
def run_hysteresis (cfg : StaticConfig) (settings : Option (ℚ × ℚ)) :
    ℚ → List ℚ → RegulatorState → List (Bool × Bool)
  | _, [], _ => []
  | t, T :: rest, s =>
      let s1 := regulation_loop_step cfg t settings (some T) s
      (s1.high.relay_state, s1.low.relay_state) ::
        run_hysteresis cfg settings (t + 1) rest s1

/-- A freshly constructed regulator with both relays off and never switched
(`RelayController.__init__` sets `_relay_state = False`,
`_last_switch_time = None`). -/
def initialRegulator (min_temp max_temp hysteresis : ℚ) : RegulatorState where
  high := ⟨false, none, 0⟩
  low := ⟨false, none, 0⟩
  min_temperature := min_temp
  max_temperature := max_temp
  hysteresis := hysteresis
  high_since_on_min_temp := none
  low_since_on_max_temp := none
  last_settings_check := none

/-- Relay shutdown performed by `TemperatureRegulator.stop`
(temperature_regulator.py lines 158-178): both relays are switched off
directly through `RelayController.turn_off`, without consulting
`_can_switch_now`. -/
def regulator_stop_relays (now : ℚ) (s : RegulatorState) : RegulatorState :=
  { s with high := (turn_off now s.high).1, low := (turn_off now s.low).1 }

/-- `ValveController.manual_cooling_on` (valve_controller.py lines 259-287)
with the controller running: stop the regulator (forcing both relays off),
then call `RelayController.turn_on` on the upper relay directly — again
without any minimum-cycle-time check. -/
def manual_cooling_on (now : ℚ) (s : RegulatorState) : RegulatorState × Bool :=
  let s1 := regulator_stop_relays now s
  let p := turn_on now s1.high
  ({ s1 with high := p.1 }, p.2)

/-- State of `TemperatureDataProvider` (data_manager_integration.py lines
26-52): the cached temperature and the time of the last successful update. -/
structure ProviderState where
  current_temperature : Option ℚ
  last_update : Option ℚ
deriving DecidableEq

/-- One iteration of `TemperatureDataProvider._update_loop`
(data_manager_integration.py lines 150-176): `fetched` is the value returned
by `get_temperature_data()`.  Only a successful fetch replaces the cache; a
failed fetch (`None`) merely bumps the failure counters and leaves the cached
temperature and its timestamp untouched. -/
def provider_update (now : ℚ) (fetched : Option ℚ)
    (p : ProviderState) : ProviderState :=
  match fetched with
  | some T => { current_temperature := some T, last_update := some now }
  | none => p

/-- `TemperatureDataProvider.get_current_temperature`
(data_manager_integration.py lines 88-96): returns the cached value as is —
there is no staleness or status check on this path. -/
def get_current_temperature (p : ProviderState) : Option ℚ :=
  p.current_temperature

/-! ### Settings persistence (`data_manager/settings_manager.py`) -/

/-- The persisted `gui_settings.json` document, flattened: `min_temp` /
`max_temp` are `temperature_settings`, `mode` is `mode_settings.mode`,
`cooling_on` is `cooling_settings.cooling_on`, `source` is
`metadata.source`.  `last_updated` (an ISO-8601 string in the source) is
modelled as a rational timestamp. -/
structure SettingsDoc where
  version : String
  last_updated : ℚ
  min_temp : ℚ
  max_temp : ℚ
  mode : Option String
  cooling_on : Option Bool
  ip_address_asic : Option String
  source : String
deriving DecidableEq

/-- File-system effects a `SettingsManager` operation can perform on the
settings file.  The source performs `backupCopy` (`shutil.copy2` into
`backups/gui_settings_<timestamp>.json`) and `writeSettingsFile`
(`open(self.settings_file, "w")` + `json.dump`, a direct truncating write).
`writeTempFile` and `renameTempToSettings` describe the tmp+rename pattern of
an atomic replacement; they are part of the vocabulary so that its absence
from the emitted traces is expressible. -/
inductive FsOp where
  | backupCopy (time : ℚ)
  | writeSettingsFile (doc : SettingsDoc)
  | writeTempFile (doc : SettingsDoc)
  | renameTempToSettings
deriving DecidableEq

/-- `SettingsManager.validate_settings` (settings_manager.py lines 419-475)
on a dict that carries both `min_temp` and `max_temp`: requires
`min_temp < max_temp`, both within `[0, 100]`, and the gap within
`[0.1, 30]`. -/
def validate_settings (min_temp max_temp : ℚ) : Bool :=
  decide (min_temp < max_temp) &&
  decide (0 ≤ min_temp) && decide (min_temp ≤ 100) &&
  decide (0 ≤ max_temp) && decide (max_temp ≤ 100) &&
  decide (1/10 ≤ max_temp - min_temp) && decide (max_temp - min_temp ≤ 30)

/-- The `settings_dict` argument of `SettingsManager.save_settings`;
validation insists on `min_temp` / `max_temp` being present, the remaining
keys are optional. -/
structure SaveInput where
  min_temp : ℚ
  max_temp : ℚ
  source : Option String
  mode : Option String
  cooling_on : Option Bool
  ip_address_asic : Option String
deriving DecidableEq

/-- The document assembled by `SettingsManager.save_settings`
(settings_manager.py lines 73-118): fresh `version` / `last_updated` /
`metadata`, thresholds from the input, and `ip_address_asic` /
`mode_settings` / `cooling_settings` taken from the input when supplied,
otherwise carried over from the existing document. -/
def mk_save_doc (now : ℚ) (existing : Option SettingsDoc)
    (inp : SaveInput) : SettingsDoc where
  version := "1.0"
  last_updated := now
  min_temp := inp.min_temp
  max_temp := inp.max_temp
  mode := inp.mode.orElse fun _ => existing.bind (·.mode)
  cooling_on := inp.cooling_on.orElse fun _ => existing.bind (·.cooling_on)
  ip_address_asic :=
    inp.ip_address_asic.orElse fun _ => existing.bind (·.ip_address_asic)
  source := inp.source.getD "unknown"

/-- `SettingsManager.save_settings` (settings_manager.py lines 41-133).
Returns the trace of file-system operations, the resulting on-disk document
and the boolean result.  On validation failure nothing is written and
`false` is returned.  Otherwise: if the settings file exists a timestamped
backup copy of the *old* document is made first, and then the new document
is written directly to `gui_settings.json` — there is no temporary file and
no rename. -/
def save_settings (now : ℚ) (existing : Option SettingsDoc)
    (inp : SaveInput) : List FsOp × Option SettingsDoc × Bool :=
  if validate_settings inp.min_temp inp.max_temp then
    let doc := mk_save_doc now existing inp
    ((match existing with
      | some _ => [FsOp.backupCopy now]
      | none => []) ++ [FsOp.writeSettingsFile doc],
     some doc, true)
  else ([], existing, false)

/-- `SettingsManager._cleanup_old_backups` (settings_manager.py lines
511-530): when more than 5 backup files exist, sort them by mtime and delete
all but the newest 5.  The backups are represented by their mtimes. -/
def cleanup_old_backups (mtimes : List ℚ) : List ℚ :=
  if mtimes.length > 5 then
    let sorted := mtimes.insertionSort (· ≤ ·)
    sorted.drop (sorted.length - 5)
  else mtimes

/-- Python `str.lower()`, character by character.  `Char.toLower` lower-cases
the ASCII range only, which covers the Latin aliases; the Cyrillic aliases
in the source appear in lower case already, so upper-case Cyrillic input —
which Python would also map — is outside this model. -/
def pyLower (s : String) : String := ⟨s.data.map Char.toLower⟩

/-- Python `str.strip()`: drop leading and trailing whitespace. -/
def pyStrip (s : String) : String :=
  ⟨((s.data.dropWhile Char.isWhitespace).reverse.dropWhile
      Char.isWhitespace).reverse⟩

/-- Mode normalization in `SettingsManager.save_mode` (settings_manager.py
lines 190-202): lower-case the trimmed value, map the aliases, and accept
only `auto` / `manual` / `predictive`. -/
def normalize_mode (mode_value : String) : Option String :=
  let n := pyLower (pyStrip mode_value)
  let n :=
    if n = "авто" || n = "автоматический" || n = "automatic" then "auto"
    else if n = "авто (предиктивный)" || n = "предиктивный" || n = "predictive" then
      "predictive"
    else if n = "ручной" || n = "manual" then "manual"
    else n
  if n = "auto" || n = "manual" || n = "predictive" then some n else none

/-- The base document produced by `save_mode` when neither the settings file
nor `defaults.json` exists: `data = {}` filled in by the `setdefault` calls
(settings_manager.py lines 221-231). -/
def default_base_doc : SettingsDoc where
  version := "1.0"
  last_updated := 0
  min_temp := 45
  max_temp := 55
  mode := none
  cooling_on := none
  ip_address_asic := none
  source := ""

/-- `SettingsManager.save_mode` (settings_manager.py lines 180-248).  After
normalization the existing document (or defaults, or the base structure) is
loaded, `last_updated` and metadata are refreshed, `mode_settings` is set —
unconditionally, with no comparison against the currently persisted mode —
a backup copy is made whenever the settings file exists, and the document is
rewritten in place. -/
def save_mode (now : ℚ) (existing defaults : Option SettingsDoc)
    (mode_value : String) : List FsOp × Option SettingsDoc × Bool :=
  match normalize_mode mode_value with
  | none => ([], existing, false)
  | some m =>
      let base := match existing with
        | some d => d
        | none => defaults.getD default_base_doc
      let doc := { base with last_updated := now, mode := some m,
                             source := "mode_update" }
      ((match existing with
        | some _ => [FsOp.backupCopy now]
        | none => []) ++ [FsOp.writeSettingsFile doc],
       some doc, true)

/-! ### Miner transport
(`get_temperature_from_asic/whatsminer_interface/whatsminer_transport.py`) -/

/-- Little-endian `u32` decoding of the 4-byte length prefix
(`struct.unpack` with format `<I`). -/
def u32le (b0 b1 b2 b3 : Nat) : Nat :=
  b0 + 256 * b1 + 65536 * b2 + 16777216 * b3

/-- `WhatsminerTCP.send` (whatsminer_transport.py lines 62-109), reading
side.  `stream` is the byte stream the peer will deliver.  Returns the
response payload (or `none` on failure) together with the number of bytes
consumed from the stream.  After the 4-byte header, a declared length above
100000 aborts immediately — `return None` — with no further read. -/
def tcp_send (stream : List Nat) : Option (List Nat) × Nat :=
  match stream with
  | b0 :: b1 :: b2 :: b3 :: rest =>
      let response_length := u32le b0 b1 b2 b3
      if response_length > 100000 then (none, 4)
      else if rest.length ≥ response_length then
        (some (rest.take response_length), 4 + response_length)
      else (none, 4 + rest.length)
  | _ => (none, stream.length)

/-- Outcome of `SimpleTemperatureMonitor.get_temperature_reading`
(simple_monitor.py lines 75-141): whether a valid reading was produced,
whether the returned `TemperatureData` carries `status="error"`, and whether
`tcp.close()` was called. -/
structure FetchResult where
  ok : Bool
  status_error : Bool
  socket_closed : Bool
deriving DecidableEq

/-- The response handling of `get_temperature_reading` after a successful
connect: `resp = tcp.send(...)`; if `resp` is truthy and `resp["code"] == 0`
a reading is produced, otherwise an error reading; the socket is closed on
every branch.  `parse_code` abstracts the JSON decoding of the payload into
its `code` field. -/
def fetch_from_stream (stream : List Nat)
    (parse_code : List Nat → Option Int) : FetchResult × Nat :=
  let r := tcp_send stream
  match r.1 with
  | some payload =>
      match parse_code payload with
      | some 0 => (⟨true, false, true⟩, r.2)
      | _ => (⟨false, true, true⟩, r.2)
  | none => (⟨false, true, true⟩, r.2)

/-! ### Shared data store (`data_manager/data_manager.py`) -/

/-- The `DataType` enum exactly as defined in data_manager.py lines 15-20:
it has four members — `TEMPERATURE`, `VALVE_POSITION`, `SYSTEM_STATUS`,
`ERROR` — and no others. -/
inductive DataType where
  | TEMPERATURE
  | VALVE_POSITION
  | SYSTEM_STATUS
  | ERROR
deriving DecidableEq

/-- The Python attribute name of each `DataType` member. -/
def DataType.attrName : DataType → String
  | .TEMPERATURE => "TEMPERATURE"
  | .VALVE_POSITION => "VALVE_POSITION"
  | .SYSTEM_STATUS => "SYSTEM_STATUS"
  | .ERROR => "ERROR"

/-- All members of the `DataType` enum. -/
def dataTypeMembers : List DataType :=
  [.TEMPERATURE, .VALVE_POSITION, .SYSTEM_STATUS, .ERROR]

/-- Python attribute lookup `DataType.<attr>`: the member with the given
name, or `none` — in which case the interpreter raises `AttributeError`,
as happens for `DataType.MODE` in
`start_mode_cooling_listener` (data_manager_integration.py line 320). -/
def dataTypeMemberNamed (attr : String) : Option DataType :=
  dataTypeMembers.find? (fun d => decide (d.attrName = attr))

/-- One entry of a per-key history list (`DataEntry`); only the fields
`get_history` inspects are kept. -/
structure HistEntry where
  value : Int
  timestamp : ℚ
deriving DecidableEq

/-- Python list slicing `xs[i:]` for an arbitrary (possibly negative)
integer index. -/
def pyListFrom (xs : List HistEntry) (i : Int) : List HistEntry :=
  if 0 ≤ i then xs.drop i.toNat
  else xs.drop ((xs.length : Int) + i).toNat

/-- `DataManager.get_history` (data_manager.py lines 139-163): copy the
stored history, filter by `since` when given, then — only when `limit` is
truthy, i.e. not `None` and not `0` — keep the last `limit` entries via
`history[-limit:]`. -/
def get_history (hist : List HistEntry) (limit : Option Int)
    (since : Option ℚ) : List HistEntry :=
  let h := match since with
    | some t => hist.filter (fun e => decide (e.timestamp ≥ t))
    | none => hist
  match limit with
  | some l => if l ≠ 0 then pyListFrom h (-l) else h
  | none => h

/-! ## Helper lemmas -/

theorem safe_turn_on_of_blocked {mc now : ℚ} {r : RelayState}
    (h : can_switch_now mc now r = false) :
    safe_turn_on mc now r = (r, false) := by
  simp [safe_turn_on, h]

theorem safe_turn_off_of_blocked {mc now : ℚ} {r : RelayState}
    (h : can_switch_now mc now r = false) :
    safe_turn_off mc now r = (r, false) := by
  simp [safe_turn_off, h]

theorem regulate_temperature_high_of_blocked {cfg : StaticConfig}
    {now T : ℚ} {s : RegulatorState}
    (h : can_switch_now cfg.min_cycle_time now s.high = false) :
    (regulate_temperature cfg now T s).high = s.high := by
  simp only [regulate_temperature]
  split_ifs <;>
    simp [safe_turn_on_of_blocked h, safe_turn_off_of_blocked h]

theorem regulate_temperature_low_of_blocked {cfg : StaticConfig}
    {now T : ℚ} {s : RegulatorState}
    (h : can_switch_now cfg.min_cycle_time now s.low = false) :
    (regulate_temperature cfg now T s).low = s.low := by
  simp only [regulate_temperature]
  split_ifs <;>
    simp [safe_turn_on_of_blocked h, safe_turn_off_of_blocked h]

theorem predictive_apply_high_fst_of_blocked {mc now T : ℚ}
    {a b ha la : Bool} {high low : RelayState} {hm : Option ℚ}
    (h : can_switch_now mc now high = false) :
    (predictive_apply_high mc now T a b ha la high low hm).1 = high := by
  simp only [predictive_apply_high]
  split_ifs <;>
    simp [safe_turn_on_of_blocked h, safe_turn_off_of_blocked h]

theorem predictive_apply_high_snd_of_blocked {mc now T : ℚ}
    {a b ha la : Bool} {high low : RelayState} {hm : Option ℚ}
    (h : can_switch_now mc now low = false) :
    (predictive_apply_high mc now T a b ha la high low hm).2.1 = low := by
  simp only [predictive_apply_high]
  split_ifs <;>
    simp [safe_turn_on_of_blocked h, safe_turn_off_of_blocked h]

theorem predictive_apply_low_fst_of_blocked {mc now T : ℚ}
    {a b ha la : Bool} {high1 low1 : RelayState} {lm : Option ℚ}
    (h : can_switch_now mc now high1 = false) :
    (predictive_apply_low mc now T a b ha la high1 low1 lm).1 = high1 := by
  simp only [predictive_apply_low]
  split_ifs <;>
    simp [safe_turn_on_of_blocked h, safe_turn_off_of_blocked h]

theorem predictive_apply_low_snd_of_blocked {mc now T : ℚ}
    {a b ha la : Bool} {high1 low1 : RelayState} {lm : Option ℚ}
    (h : can_switch_now mc now low1 = false) :
    (predictive_apply_low mc now T a b ha la high1 low1 lm).2.1 = low1 := by
  simp only [predictive_apply_low]
  split_ifs <;>
    simp [safe_turn_on_of_blocked h, safe_turn_off_of_blocked h]

theorem predictive_high_of_blocked {cfg : StaticConfig} {now T : ℚ}
    {slope : Option ℚ} {s : RegulatorState}
    (h : can_switch_now cfg.min_cycle_time now s.high = false) :
    (regulate_temperature_predictive cfg now T slope s).high = s.high := by
  simp only [regulate_temperature_predictive]
  rw [predictive_apply_high_fst_of_blocked h,
      predictive_apply_low_fst_of_blocked h]

theorem predictive_low_of_blocked {cfg : StaticConfig} {now T : ℚ}
    {slope : Option ℚ} {s : RegulatorState}
    (h : can_switch_now cfg.min_cycle_time now s.low = false) :
    (regulate_temperature_predictive cfg now T slope s).low = s.low := by
  simp only [regulate_temperature_predictive]
  rw [predictive_apply_high_snd_of_blocked h,
      predictive_apply_low_snd_of_blocked h]

theorem predictive_apply_high_defer {mc now T : ℚ} {a b : Bool}
    {high low : RelayState} {hm : Option ℚ}
    (hlow : low.relay_state = true)
    (h : can_switch_now mc now low = false) :
    predictive_apply_high mc now T a b false true high low hm =
      (high, low, true, hm) := by
  cases a <;>
    simp [predictive_apply_high, safe_turn_off_of_blocked h, hlow]

theorem predictive_apply_low_keep_when_active {mc now T : ℚ}
    {a b ha : Bool} {high1 low1 : RelayState} {lm : Option ℚ} :
    (predictive_apply_low mc now T a b ha true high1 low1 lm).1 = high1 := by
  simp only [predictive_apply_low]
  split_ifs <;> simp_all

theorem predictive_apply_high_keep_when_on {mc now T : ℚ} {a b la : Bool}
    {high low : RelayState} {hm : Option ℚ}
    (h : can_switch_now mc now high = false) :
    predictive_apply_high mc now T a b true la high low hm =
      (high, low, la, if b then none else hm) := by
  cases b <;>
    simp [predictive_apply_high, safe_turn_off_of_blocked h]

theorem predictive_apply_low_defer_when_high_on {mc now T : ℚ} {a b : Bool}
    {high1 low1 : RelayState} {lm : Option ℚ}
    (hh : high1.relay_state = true)
    (h : can_switch_now mc now high1 = false) :
    (predictive_apply_low mc now T a b true false high1 low1 lm).2.1 = low1 := by
  cases a <;>
    simp [predictive_apply_low, safe_turn_off_of_blocked h, hh]

/-! ## Claims -/

/-- C1 counterexample.  In the Auto (hysteresis) algorithm the claim fails:
starting from a freshly initialized regulator (`min_c = 45`, `max_c = 55`,
default hysteresis `0.1`, `min_cycle_time = 5`), the tick at `t = 0` with
`T = 56 ≥ max_c` energizes the upper relay, and the tick at `t = 1` with
`T = 44` first fails to switch the upper relay off (blocked by the minimum
cycle time) yet still energizes the lower relay — `_regulate_temperature`
contains no mutual-exclusion logic — leaving both channels energized
simultaneously. -/
theorem c1_counterexample :
    (regulate_temperature { defaultStaticConfig with min_cycle_time := 5 } 1 44
      (regulate_temperature { defaultStaticConfig with min_cycle_time := 5 } 0 56
        (initialRegulator 45 55 (1/10)))).high.relay_state = true ∧
    (regulate_temperature { defaultStaticConfig with min_cycle_time := 5 } 1 44
      (regulate_temperature { defaultStaticConfig with min_cycle_time := 5 } 0 56
        (initialRegulator 45 55 (1/10)))).low.relay_state = true := by
  decide

/-- C1 (amended): only the predictive algorithm implements the
turn-other-off-first / defer discipline, and only with respect to the channel
states read at the start of the tick: if a channel is off and the opposite
channel is on at tick start but cannot be switched off (blocked by the
minimum cycle time), then that channel is not energized by this predictive
tick.  The Auto (hysteresis) tick has no such guard, so there the two relays
can become energized simultaneously (see the counterexample). -/
theorem c1_predictive_mutual_exclusion_defer (cfg : StaticConfig)
    (now T : ℚ) (slope : Option ℚ) (s : RegulatorState) :
    (s.high.relay_state = false → s.low.relay_state = true →
      can_switch_now cfg.min_cycle_time now s.low = false →
      (regulate_temperature_predictive cfg now T slope s).high.relay_state
        = false)
  ∧ (s.low.relay_state = false → s.high.relay_state = true →
      can_switch_now cfg.min_cycle_time now s.high = false →
      (regulate_temperature_predictive cfg now T slope s).low.relay_state
        = false) := by
  constructor
  · intro hH hL hB
    simp only [regulate_temperature_predictive]
    rw [hH, hL, predictive_apply_high_defer hL hB]
    dsimp only
    rw [predictive_apply_low_keep_when_active]
    exact hH
  · intro hL hH hB
    simp only [regulate_temperature_predictive]
    rw [hH, hL, predictive_apply_high_keep_when_on hB]
    dsimp only
    rw [predictive_apply_low_defer_when_high_on hH hB]
    exact hL

/-- C1 witness: concrete instantiation of the deferral theorem — upper off,
lower on and blocked (`min_cycle_time = 5`, last switch at `t = 0`, tick at
`t = 1`), `T = 56` commanding the upper channel on; the predictive tick
leaves the upper channel off. -/
theorem c1_witness :
    (regulate_temperature_predictive
      { defaultStaticConfig with min_cycle_time := 5 } 1 56 none
      { initialRegulator 45 55 (1/10) with
          low := ⟨true, some 0, 1⟩ }).high.relay_state = false :=
  (c1_predictive_mutual_exclusion_defer _ 1 56 none _).1
    (by decide) (by decide) (by decide)

/-- C2 counterexample.  `ValveController.manual_cooling_on` bypasses the
minimum cycle time entirely: with the upper relay on and last switched at
`t = 0` and `t_min_cycle = 1`, a manual command at `t = 3/10` first commits
an off transition (inside `TemperatureRegulator.stop`) and then an on
transition via `RelayController.turn_on` — two committed transitions with
`now − last_switch = 3/10 < 1`, visible in the switch counter going from 1
to 3. -/
theorem c2_counterexample :
    (manual_cooling_on (3/10)
      { initialRegulator 45 55 (1/10) with
          high := ⟨true, some 0, 1⟩ }).1.high =
      ⟨true, some (3/10), 3⟩ ∧
    ¬ ((3/10 : ℚ) - 0 ≥ 1) := by
  constructor
  · decide
  · norm_num

/-- C2 (amended): the minimum-cycle-time rule holds for every transition
committed by the regulator's control algorithms — both the hysteresis and the
predictive tick actuate relays only through `_safe_turn_on` /
`_safe_turn_off`, so a channel whose logical state changes during a tick
satisfied `_can_switch_now` (never switched, non-positive `min_cycle_time`,
or `now − last_switch ≥ min_cycle_time`).  It does not hold for regulator
stop and the manual cooling commands, which call `turn_on` / `turn_off`
directly (see the counterexample). -/
theorem c2_min_cycle_in_control_loop (cfg : StaticConfig) (now T : ℚ)
    (slope : Option ℚ) (s : RegulatorState) :
    ((regulate_temperature cfg now T s).high.relay_state
        ≠ s.high.relay_state →
      can_switch_now cfg.min_cycle_time now s.high = true)
  ∧ ((regulate_temperature cfg now T s).low.relay_state
        ≠ s.low.relay_state →
      can_switch_now cfg.min_cycle_time now s.low = true)
  ∧ ((regulate_temperature_predictive cfg now T slope s).high.relay_state
        ≠ s.high.relay_state →
      can_switch_now cfg.min_cycle_time now s.high = true)
  ∧ ((regulate_temperature_predictive cfg now T slope s).low.relay_state
        ≠ s.low.relay_state →
      can_switch_now cfg.min_cycle_time now s.low = true) := by
  refine ⟨fun hne => ?_, fun hne => ?_, fun hne => ?_, fun hne => ?_⟩
  · cases hcs : can_switch_now cfg.min_cycle_time now s.high
    · exact absurd (congrArg RelayState.relay_state
        (regulate_temperature_high_of_blocked hcs)) hne
    · rfl
  · cases hcs : can_switch_now cfg.min_cycle_time now s.low
    · exact absurd (congrArg RelayState.relay_state
        (regulate_temperature_low_of_blocked hcs)) hne
    · rfl
  · cases hcs : can_switch_now cfg.min_cycle_time now s.high
    · exact absurd (congrArg RelayState.relay_state
        (predictive_high_of_blocked hcs)) hne
    · rfl
  · cases hcs : can_switch_now cfg.min_cycle_time now s.low
    · exact absurd (congrArg RelayState.relay_state
        (predictive_low_of_blocked hcs)) hne
    · rfl

/-- C2 witness: the hysteresis tick at `t = 0` with `T = 56` switches the
never-switched upper relay on, and the theorem yields that the switch was
permitted by `_can_switch_now`. -/
theorem c2_witness :
    can_switch_now defaultStaticConfig.min_cycle_time 0
      (initialRegulator 45 55 (1/10)).high = true :=
  (c2_min_cycle_in_control_loop defaultStaticConfig 0 56 none
    (initialRegulator 45 55 (1/10))).1 (by decide)

/-- C3 (confirmed).  The S1 hysteresis cooling cycle: settings
`min_c = 45`, `max_c = 55`, Auto algorithm with the regulator's default
working hysteresis `0.1`, `t_min_cycle = 1 s`, both relays initially off and
never switched, temperatures fed at 1 Hz starting at `t = 0`.  The per-tick
relay trace is exactly upper = OFF,ON,ON,ON,OFF,OFF,OFF,OFF,OFF and
lower = OFF,OFF,OFF,OFF,OFF,OFF,OFF,ON,ON. -/
theorem c3_hysteresis_cooling_cycle :
    run_hysteresis { defaultStaticConfig with min_cycle_time := 1 }
      (some (55, 45)) 0
      [54.8, 55.0, 55.3, 54.9, 54.8, 45.2, 45.0, 44.9, 44.8]
      (initialRegulator 45 55 (1/10)) =
    [(false, false), (true, false), (true, false), (true, false),
     (false, false), (false, false), (false, false), (false, true),
     (false, true)] := by
  decide

/-- C4 counterexample.  The temperature callback chain has no staleness or
status check: with the provider's last successful poll at `t = 0`
(`T = 56` cached) and every later poll failing (which leaves the cache
untouched), a regulator tick at `t = 12` — more than 10 seconds into the
stale period — still receives the cached `56 ≥ max_c` and energizes the
upper relay, so the relay states at the start of the stale period and 10
seconds later differ. -/
theorem c4_counterexample :
    provider_update 11 none ⟨some 56, some 0⟩ = ⟨some 56, some 0⟩
  ∧ get_current_temperature ⟨some 56, some 0⟩ = some 56
  ∧ ((12 : ℚ) - 0 > 10)
  ∧ (regulation_loop_step defaultStaticConfig 12 none
      (get_current_temperature ⟨some 56, some 0⟩)
      (initialRegulator 45 55 (1/10))).high.relay_state = true
  ∧ (initialRegulator 45 55 (1/10)).high.relay_state = false := by
  refine ⟨rfl, rfl, by decide, by decide, rfl⟩

/-- C4 (amended): the regulator refrains from temperature-driven transitions
only when the temperature callback returns `None` — in that case a loop
iteration leaves both relay states untouched.  The provider, however, keeps
returning the last cached reading unchanged through failed polls
(`provider_update` with `None` is the identity and `get_current_temperature`
performs no freshness or status check), so during a stale period the
regulator keeps regulating on the old value and relays may well change (see
the counterexample). -/
theorem c4_relays_hold_only_without_reading (cfg : StaticConfig) (now : ℚ)
    (settings : Option (ℚ × ℚ)) (s : RegulatorState) :
    ((regulation_loop_step cfg now settings none s).high = s.high
      ∧ (regulation_loop_step cfg now settings none s).low = s.low)
  ∧ (∀ (t : ℚ) (p : ProviderState), provider_update t none p = p)
  ∧ (∀ p : ProviderState,
      get_current_temperature p = p.current_temperature) := by
  refine ⟨?_, fun t p => rfl, fun p => rfl⟩
  unfold regulation_loop_step check_and_update_temperature_settings
  cases settings with
  | none => split_ifs <;> exact ⟨rfl, rfl⟩
  | some pr =>
      obtain ⟨mx, mn⟩ := pr
      dsimp only
      split_ifs <;> exact ⟨rfl, rfl⟩

/-- C5 counterexample.  When the published settings change to
`min = 46, max = 48`, the regulator updates its working `min_temperature`
and `max_temperature` but leaves the working hysteresis at its configured
`0.1` — `_check_and_update_temperature_settings` never touches
`temperature_config.hysteresis`, so `hysteresis_c ≠ max_c − min_c = 2`. -/
theorem c5_counterexample :
    (check_and_update_temperature_settings defaultStaticConfig 0
        (some (48, 46)) (initialRegulator 45 55 (1/10))).min_temperature = 46
  ∧ (check_and_update_temperature_settings defaultStaticConfig 0
        (some (48, 46)) (initialRegulator 45 55 (1/10))).max_temperature = 48
  ∧ (check_and_update_temperature_settings defaultStaticConfig 0
        (some (48, 46)) (initialRegulator 45 55 (1/10))).hysteresis = 1/10
  ∧ ((1 : ℚ)/10 ≠ 48 - 46) := by
  refine ⟨by decide, by decide, by decide, by decide⟩

/-- C5 (amended): on every tick on which the settings check fires (first tick
ever, or at least `settings_check_interval` seconds after the previous
check — with the 1 s control interval that is every tick), the published
`TEMPERATURE_SETTINGS` are re-read and the working `min_temperature` and
`max_temperature` equal the published values before the tick's control
decision runs; the working hysteresis is not updated from the settings and
keeps its previous value. -/
theorem c5_settings_refresh_min_max_only (cfg : StaticConfig) (now T : ℚ)
    (new_max new_min : ℚ) (s : RegulatorState)
    (h : settings_check_fires cfg now s = true) :
    (check_and_update_temperature_settings cfg now (some (new_max, new_min))
        s).max_temperature = new_max
  ∧ (check_and_update_temperature_settings cfg now (some (new_max, new_min))
        s).min_temperature = new_min
  ∧ (check_and_update_temperature_settings cfg now (some (new_max, new_min))
        s).hysteresis = s.hysteresis
  ∧ regulation_loop_step cfg now (some (new_max, new_min)) (some T) s =
      regulate_temperature cfg now T
        (check_and_update_temperature_settings cfg now
          (some (new_max, new_min)) s) := by
  refine ⟨?_, ?_, ?_, rfl⟩ <;>
    · unfold check_and_update_temperature_settings
      rw [if_pos h]
      dsimp only
      split_ifs with hne
      · rfl
      · push_neg at hne
        simp [hne.1, hne.2]

/-- C5 witness: concrete instantiation — settings `(48, 46)` published on the
first tick of a regulator configured with `min = 45`, `max = 55`,
hysteresis `0.1`. -/
theorem c5_witness :
    (check_and_update_temperature_settings defaultStaticConfig 0
        (some (48, 46)) (initialRegulator 45 55 (1/10))).max_temperature = 48 :=
  (c5_settings_refresh_min_max_only defaultStaticConfig 0 50 48 46
    (initialRegulator 45 55 (1/10)) (by decide)).1

/-- C6 counterexample.  On a concrete save over an existing document the
trace emitted by `save_settings` is a backup copy of the *old* document
followed by one direct truncating write of the settings file: there is no
temporary-file write and no rename (so the write is not atomic), and the
backup precedes the write instead of being appended after a successful
write. -/
theorem c6_counterexample :
    (save_settings 2 (some ⟨"1.0", 1, 45, 55, some "auto", none, none, "x"⟩)
        ⟨46, 48, none, none, none, none⟩).1 =
      [FsOp.backupCopy 2,
       FsOp.writeSettingsFile ⟨"1.0", 2, 46, 48, some "auto", none, none,
         "unknown"⟩]
  ∧ FsOp.renameTempToSettings ∉
      (save_settings 2 (some ⟨"1.0", 1, 45, 55, some "auto", none, none, "x"⟩)
        ⟨46, 48, none, none, none, none⟩).1 := by
  refine ⟨by decide, by decide⟩

/-- C6 (amended): `save_settings` validates the thresholds (refusing the
write otherwise), then — when the settings file exists — first copies the
current document to a timestamped backup, and then rewrites
`gui_settings.json` in place with a single direct write; no temporary file
and no rename are involved, so the write is not atomic.  The backup
directory is pruned to at most 5 files by mtime. -/
theorem c6_save_settings_trace (now : ℚ) (existing : Option SettingsDoc)
    (inp : SaveInput) (backups : List ℚ)
    (h : validate_settings inp.min_temp inp.max_temp = true) :
    (save_settings now existing inp).1 =
      (match existing with
        | some _ => [FsOp.backupCopy now]
        | none => []) ++
        [FsOp.writeSettingsFile (mk_save_doc now existing inp)]
  ∧ (save_settings now existing inp).2.1 = some (mk_save_doc now existing inp)
  ∧ (save_settings now existing inp).2.2 = true
  ∧ FsOp.renameTempToSettings ∉ (save_settings now existing inp).1
  ∧ (cleanup_old_backups backups).length ≤ 5 := by
  refine ⟨?_, ?_, ?_, ?_, ?_⟩
  · unfold save_settings; rw [if_pos h]
  · unfold save_settings; rw [if_pos h]
  · unfold save_settings; rw [if_pos h]
  · unfold save_settings
    rw [if_pos h]
    cases existing <;> simp
  · unfold cleanup_old_backups
    split_ifs with hlen
    · rw [List.length_drop, List.length_insertionSort]
      omega
    · omega

/-- C6 witness: concrete instantiation of the trace theorem on a fresh file
(`existing = none`) with valid thresholds `46 / 48` and six backups on
disk. -/
theorem c6_witness :
    (save_settings 3 none ⟨46, 48, none, none, none, none⟩).2.2 = true
  ∧ (cleanup_old_backups [1, 2, 3, 4, 5, 6]).length ≤ 5 :=
  ⟨(c6_save_settings_trace 3 none ⟨46, 48, none, none, none, none⟩ []
      (by decide)).2.2.1,
   (c6_save_settings_trace 3 none ⟨46, 48, none, none, none, none⟩
      [1, 2, 3, 4, 5, 6] (by decide)).2.2.2.2⟩

/-- C7 counterexample.  `save_mode` never compares the incoming mode with the
persisted one: saving `"auto"` over a document whose mode is already
`"auto"` still creates a new timestamped backup and rewrites the settings
document (its `last_updated` changes), so the operation is not a no-op. -/
theorem c7_counterexample :
    (save_mode 2
        (some ⟨"1.0", 1, 45, 55, some "auto", none, none, "mode_update"⟩)
        none "auto").1 =
      [FsOp.backupCopy 2,
       FsOp.writeSettingsFile
         ⟨"1.0", 2, 45, 55, some "auto", none, none, "mode_update"⟩]
  ∧ (save_mode 2
        (some ⟨"1.0", 1, 45, 55, some "auto", none, none, "mode_update"⟩)
        none "auto").2.1 ≠
      some ⟨"1.0", 1, 45, 55, some "auto", none, none, "mode_update"⟩ := by
  refine ⟨by decide, by decide⟩

/-- C7 (amended): calling `save_mode` with a value that normalizes to the
currently persisted mode is not a no-op — it still emits a backup copy and a
full rewrite of the document — but the rewritten document differs from the
old one only in `last_updated` and the bookkeeping metadata, the mode itself
being unchanged; the function succeeds and touches nothing but the settings
file (in particular it never interacts with the regulator, whose reset is
triggered only through the separate `DataManager` mode-listener path). -/
theorem c7_save_mode_same_value (now : ℚ) (d : SettingsDoc)
    (defaults : Option SettingsDoc) (m mv : String)
    (h : normalize_mode m = some mv) (hcur : d.mode = some mv) :
    (save_mode now (some d) defaults m).1 =
      [FsOp.backupCopy now,
       FsOp.writeSettingsFile
         { d with last_updated := now, source := "mode_update" }]
  ∧ (save_mode now (some d) defaults m).2.1 =
      some { d with last_updated := now, source := "mode_update" }
  ∧ (save_mode now (some d) defaults m).2.2 = true := by
  refine ⟨?_, ?_, ?_⟩ <;> simp [save_mode, h, hcur]

/-- C7 witness: concrete instantiation — persisting `"auto"` over a document
already in mode `"auto"`. -/
theorem c7_witness :
    (save_mode 5 (some ⟨"1.0", 1, 45, 55, some "auto", none, none, "y"⟩)
        none "auto").2.2 = true :=
  (c7_save_mode_same_value 5
    ⟨"1.0", 1, 45, 55, some "auto", none, none, "y"⟩ none "auto" "auto"
    (by decide) rfl).2.2

/-- C8 (confirmed).  For every response stream whose 4-byte little-endian
length prefix decodes to more than 100000, `WhatsminerTCP.send` aborts and
returns `None` having consumed exactly the 4 header bytes — no payload byte
beyond the header is read — and the fetch path of
`get_temperature_reading` turns this into an error reading
(`status="error"`) with the TCP socket closed. -/
theorem c8_length_guard (b0 b1 b2 b3 : Nat) (rest : List Nat)
    (parse_code : List Nat → Option Int)
    (h : u32le b0 b1 b2 b3 > 100000) :
    tcp_send (b0 :: b1 :: b2 :: b3 :: rest) = (none, 4)
  ∧ fetch_from_stream (b0 :: b1 :: b2 :: b3 :: rest) parse_code =
      (⟨false, true, true⟩, 4) := by
  have hsend : tcp_send (b0 :: b1 :: b2 :: b3 :: rest) = (none, 4) := by
    simp only [tcp_send]
    rw [if_pos h]
  exact ⟨hsend, by unfold fetch_from_stream; rw [hsend]⟩

/-- C8 witness: the spec's example prefix `0x000493E1` (little-endian bytes
`E1 93 04 00`, decoding to 300001 > 100000): the fetch fails, only the
4 header bytes are consumed, and the socket is closed. -/
theorem c8_witness :
    fetch_from_stream [225, 147, 4, 0] (fun _ => none) =
      (⟨false, true, true⟩, 4) :=
  (c8_length_guard 225 147 4 0 [] (fun _ => none) (by decide)).2

/-- C9: the `DataType` enum of `data_manager.py` defines exactly the four
members `TEMPERATURE`, `VALVE_POSITION`, `SYSTEM_STATUS`, `ERROR`.  Of the
nine keys the claim lists, `TEMPERATURE_SETTINGS`, `IP_ADDRESS_ASIC`,
`MODE`, `COOLING_STATE`, `VALVE_STATE_UPPER` and `VALVE_STATE_LOWER` are not
members — attribute lookup on them fails (`AttributeError` at runtime), so
the mode listener's `subscribe(DataType.MODE, …)` cannot even be evaluated —
while `VALVE_POSITION`, which the claim's key set omits, is a member. -/
theorem c9_datatype_members :
    dataTypeMemberNamed "TEMPERATURE" = some DataType.TEMPERATURE
  ∧ dataTypeMemberNamed "SYSTEM_STATUS" = some DataType.SYSTEM_STATUS
  ∧ dataTypeMemberNamed "ERROR" = some DataType.ERROR
  ∧ dataTypeMemberNamed "VALVE_POSITION" = some DataType.VALVE_POSITION
  ∧ dataTypeMemberNamed "TEMPERATURE_SETTINGS" = none
  ∧ dataTypeMemberNamed "IP_ADDRESS_ASIC" = none
  ∧ dataTypeMemberNamed "MODE" = none
  ∧ dataTypeMemberNamed "COOLING_STATE" = none
  ∧ dataTypeMemberNamed "VALVE_STATE_UPPER" = none
  ∧ dataTypeMemberNamed "VALVE_STATE_LOWER" = none
  ∧ dataTypeMembers.length = 4 := by
  decide

/-- C10 (confirmed).  `DataManager.get_history` guards the truncation with
Python truthiness (`if limit:`), so `limit = 0` — like `limit = None` —
returns the entire stored history, and `since = None` applies no time
filter. -/
theorem c10_get_history_zero_limit (hist : List HistEntry) :
    get_history hist (some 0) none = hist
  ∧ get_history hist none none = hist := by
  constructor <;> simp [get_history]

end Controller
